import Mathlib

/-!
Shallow embedding of the command-dispatch and readiness-gating core of the
Aegistrate repository (src/bot/handler.rs and src/bot/core/moderation/ban.rs).

The two global `AtomicBool` statics `DISCORD_READY` and `READY_TO_GO`, together
with the `AEGISTRATE_USER` once-cell, form the mutable state of the handler.
Each Rust function is translated into a Lean function from that state (plus the
outcomes of its external calls, passed as explicit inputs) to a new state, a
trace of observable effects, and a flag recording whether the function panicked.
Sequential (interleaving-free) execution of each handler entry point is modelled;
the atomic-ordering annotations of the source are additionally recorded as data
so that claims about them can be settled syntactically.
-/

namespace Aegistrate

/-- Model of serenity's `CurrentUser` (only identity matters here). -/
structure CurrentUser where
  id : Nat
  deriving DecidableEq, Repr

/-- The mutable global state of `handler.rs`:
`DISCORD_READY`, `READY_TO_GO` (both `AtomicBool`, initially `false`) and the
`AEGISTRATE_USER` once-cell (initially unset). -/
structure HandlerState where
  discord_ready : Bool
  ready_to_go : Bool
  aegistrate_user : Option CurrentUser
  deriving DecidableEq, Repr

/-- The initial state of the statics in `handler.rs`. -/
def initialState : HandlerState :=
  { discord_ready := false, ready_to_go := false, aegistrate_user := none }

/-- Observable effects of the handler functions. -/
inductive Event where
  | notReadyResponse
  | unknownCommandResponse
  | notCooledDownResponse
  | registryLookup (name : String)
  | cooldownCheck (userId : Nat) (name : String)
  | executeCommand (name : String)
  | logSuccess (id : Nat) (name : String)
  | logError (id : Nat) (name : String)
  | recordUse (userId : Nat) (name : String)
  | setPresence (activity : String)
  | discordReadyUpRun
  | initSystemsRun
  | errorLog (msg : String)
  | infoReady
  | exitProcess (code : Nat)
  deriving DecidableEq, Repr

/-- Result of one handler entry point: the new state of the statics, the trace
of observable effects that happened before returning or panicking, and whether
the function panicked (a panic aborts the current task; stores to the statics
performed before the panic persist). -/
structure StepOut where
  state : HandlerState
  trace : List Event
  panicked : Bool
  deriving Repr

/-- Model of a registered command: `command.metadata().name`. -/
structure Command where
  name : String
  deriving DecidableEq, Repr

/-- Model of an `ApplicationCommandInteraction`: `app_interaction.id`,
`app_interaction.user.id` and `app_interaction.data.name`. -/
structure Interaction where
  id : Nat
  userId : Nat
  name : String
  deriving DecidableEq, Repr

/-- Opaque store-layer error (`StoreUnavailable` in the spec's wording). -/
structure StoreError where
  msg : String
  deriving DecidableEq, Repr

/-- The environment of one dispatch: the command registry (`command_by_name`)
and the outcomes the external collaborators would return if called during this
dispatch (`cooled_down`, `get_remaining_cooldown`, `command.execute`,
`use_last`). -/
structure DispatchEnv where
  registry : String → Option Command
  cooledDownResult : Except StoreError Bool
  remainingResult : Except StoreError Nat
  execResult : Except String Unit
  useLastResult : Except StoreError Unit

/-- Embedding of `Handler::handle_command_execution` (handler.rs:232-251):
execute the command, log success or failure with the interaction id and command
name, then `let _ = use_last(..)` — the recording is attempted regardless of the
execution outcome and its own result is discarded. -/
def handle_command_execution (cmd : Command) (i : Interaction)
    (execResult : Except String Unit) (useLastResult : Except StoreError Unit) :
    List Event :=
  Event.executeCommand cmd.name ::
    (match execResult with
     | Except.ok _ => [Event.logSuccess i.id cmd.name]
     | Except.error _ => [Event.logError i.id cmd.name]) ++
    (match useLastResult with
     | Except.ok _ => [Event.recordUse i.userId cmd.name]
     | Except.error _ => [Event.recordUse i.userId cmd.name])

/-- Embedding of `Handler::run_application_command` (handler.rs:254-280):
readiness check on `READY_TO_GO`, registry lookup via `command_by_name`,
cooldown check via `cooled_down(..).await.unwrap()` (a store error panics), the
not-cooled-down response (whose internal `get_remaining_cooldown` error is
swallowed by `let _ =`), then `handle_command_execution`. The dispatcher never
writes to the statics. -/
def run_application_command (s : HandlerState) (i : Interaction)
    (env : DispatchEnv) : StepOut :=
  if s.ready_to_go = false then
    { state := s, trace := [Event.notReadyResponse], panicked := false }
  else
    match env.registry i.name with
    | none =>
      { state := s
        trace := [Event.registryLookup i.name, Event.unknownCommandResponse]
        panicked := false }
    | some cmd =>
      match env.cooledDownResult with
      | Except.error _ =>
        { state := s
          trace := [Event.registryLookup i.name,
                    Event.cooldownCheck i.userId cmd.name]
          panicked := true }
      | Except.ok cooled =>
        if cooled = false then
          { state := s
            trace := [Event.registryLookup i.name,
                      Event.cooldownCheck i.userId cmd.name] ++
              (match env.remainingResult with
               | Except.error _ => []
               | Except.ok _ => [Event.notCooledDownResponse])
            panicked := false }
        else
          { state := s
            trace := [Event.registryLookup i.name,
                      Event.cooldownCheck i.userId cmd.name] ++
              handle_command_execution cmd i env.execResult env.useLastResult
            panicked := false }

/-- Embedding of `Handler::discord_ready_up` (handler.rs:125-134):
`AEGISTRATE_USER.set(bot_data.user.clone()).unwrap()` panics if the once-cell is
already filled (before any store to `DISCORD_READY`); otherwise the user is
stored, `DISCORD_READY` is set to `true` and the waiting-game presence is set. -/
def discord_ready_up (s : HandlerState) (user : CurrentUser) : StepOut :=
  match s.aegistrate_user with
  | some _ => { state := s, trace := [Event.discordReadyUpRun], panicked := true }
  | none =>
    { state := { s with aegistrate_user := some user, discord_ready := true }
      trace := [Event.discordReadyUpRun, Event.setPresence "the waiting game..."]
      panicked := false }

/-- Embedding of `Handler::appear_active` (handler.rs:137-151): set the online
presence, store `true` into `READY_TO_GO`, then log the ready info — the log
reads `get_aegistrate_user()`, which panics if the once-cell is unset (after the
store has already happened). -/
def appear_active (s : HandlerState) : StepOut :=
  match s.aegistrate_user with
  | none =>
    { state := { s with ready_to_go := true }
      trace := [Event.setPresence "over the server"]
      panicked := true }
  | some _ =>
    { state := { s with ready_to_go := true }
      trace := [Event.setPresence "over the server", Event.infoReady]
      panicked := false }

/-- Embedding of `Handler::initialize_systems` (handler.rs:154-158) together
with the `unwrap_or_else(error!)` at its call site (handler.rs:101-103):
`init_all_data` and `set_up_commands` run; a failure is logged, not propagated.
`initOk` is the combined outcome of the two external calls. -/
def initialize_systems_step (initOk : Bool) : List Event :=
  if initOk then [Event.initSystemsRun]
  else [Event.initSystemsRun, Event.errorLog "Initializing system failed"]

/-- Embedding of `EventHandler::ready` (handler.rs:95-106): set up the database
(`dbOk = false` models a connection failure, which panics before any state
change), then — only if `DISCORD_READY` is still false — run `discord_ready_up`
and `initialize_systems`, and in every case finish with `appear_active`. -/
def ready (s : HandlerState) (dbOk initOk : Bool) (user : CurrentUser) :
    StepOut :=
  if dbOk = false then { state := s, trace := [], panicked := true }
  else if s.discord_ready = false then
    let r1 := discord_ready_up s user
    if r1.panicked then r1
    else
      let r2 := appear_active r1.state
      { state := r2.state
        trace := r1.trace ++ initialize_systems_step initOk ++ r2.trace
        panicked := r2.panicked }
  else
    let r2 := appear_active s
    { state := r2.state, trace := r2.trace, panicked := r2.panicked }

/-- Embedding of the closure body of `spawn_timeout_checker` (handler.rs:78-87)
after its sleep has elapsed: load `DISCORD_READY` (the only flag it reads); if
it is still false, log an error and `std::process::exit(1)`; otherwise do
nothing. The sleep duration itself is real-time behaviour outside the model. -/
def timeout_check (s : HandlerState) : List Event :=
  if s.discord_ready = false then
    [Event.errorLog "Services not ready", Event.exitProcess 1]
  else []

/-- One entry point of the handler acting on the statics. `readyEvent` is a
delivery of the gateway ready event; `appCommand` is an application-command
interaction (`interaction_create` then `run_application_command`);
`otherInteraction` is any non-application-command interaction, which
`interaction_create` ignores. The watchdog only reads the statics. -/
inductive Step : HandlerState → HandlerState → Prop where
  | readyEvent (s : HandlerState) (dbOk initOk : Bool) (u : CurrentUser) :
      Step s (ready s dbOk initOk u).state
  | appCommand (s : HandlerState) (i : Interaction) (env : DispatchEnv) :
      Step s (run_application_command s i env).state
  | otherInteraction (s : HandlerState) : Step s s

/-- States of the statics reachable from process start by handler entry
points. -/
inductive Reachable : HandlerState → Prop where
  | init : Reachable initialState
  | step {s t : HandlerState} : Reachable s → Step s t → Reachable t

/-- The memory-ordering annotations of Rust's `std::sync::atomic::Ordering`. -/
inductive MemOrd where
  | relaxed
  | acquire
  | release
  | acqrel
  | seqcst
  deriving DecidableEq, Repr

/-- Whether an ordering is acquire/release or stronger (i.e. anything except
`Relaxed`): such an ordering is what the spec requires at every readiness-flag
access. -/
def MemOrd.isAcquireReleaseOrStronger : MemOrd → Bool
  | MemOrd.relaxed => false
  | _ => true

/-- The five syntactic access sites of the two readiness flags in handler.rs:
the watchdog's `DISCORD_READY.load` (line 82), the ready guard's
`DISCORD_READY.load` (line 99), the `DISCORD_READY.store` in `discord_ready_up`
(line 127), the `READY_TO_GO.store` in `appear_active` (line 144), and the
dispatcher's `READY_TO_GO.load` (line 259). -/
inductive FlagAccessSite where
  | watchdogDiscordReadyLoad
  | readyGuardDiscordReadyLoad
  | discordReadyUpStore
  | appearActiveReadyToGoStore
  | dispatcherReadyToGoLoad
  deriving DecidableEq, Repr

/-- The ordering annotation the source writes at each flag-access site; every
one of them is `Ordering::Relaxed` in handler.rs. -/
def siteOrdering : FlagAccessSite → MemOrd
  | FlagAccessSite.watchdogDiscordReadyLoad => MemOrd.relaxed
  | FlagAccessSite.readyGuardDiscordReadyLoad => MemOrd.relaxed
  | FlagAccessSite.discordReadyUpStore => MemOrd.relaxed
  | FlagAccessSite.appearActiveReadyToGoStore => MemOrd.relaxed
  | FlagAccessSite.dispatcherReadyToGoLoad => MemOrd.relaxed

/-- Model of `ModerationParameters` (only the fields `ban` reads). -/
structure ModerationParameters where
  user : Nat
  reason : String
  deriving DecidableEq, Repr

/-- External moderation call observable from `ban`. -/
inductive BanEvent where
  | banWithReason (guild : Nat) (user : Nat) (deleteDays : Nat) (reason : String)
  deriving DecidableEq, Repr

/-- How one invocation of `ban` ends. -/
inductive BanOutcome where
  | ok
  | err (e : String)
  | panicked
  deriving DecidableEq, Repr

/-- Embedding of `ban` (ban.rs:25-36): `interaction.guild_id.unwrap()` panics
when the interaction carries no guild id (a DM invocation) before any external
call; otherwise `ban_with_reason(http, params.user, 7, params.reason)` is
called and its error, if any, is propagated by `?`. `banResult` is the outcome
the external call would return. -/
def ban (params : ModerationParameters) (guild_id : Option Nat)
    (banResult : Except String Unit) : BanOutcome × List BanEvent :=
  match guild_id with
  | none => (BanOutcome.panicked, [])
  | some g =>
    match banResult with
    | Except.ok _ =>
      (BanOutcome.ok, [BanEvent.banWithReason g params.user 7 params.reason])
    | Except.error e =>
      (BanOutcome.err e, [BanEvent.banWithReason g params.user 7 params.reason])

end Aegistrate

namespace Aegistrate

/-- The dispatcher never writes to the statics. -/
theorem dispatch_preserves_state (s : HandlerState) (i : Interaction)
    (env : DispatchEnv) : (run_application_command s i env).state = s := by
  rcases hrtg : s.ready_to_go
  · simp [run_application_command, hrtg]
  · rcases hreg : env.registry i.name with _ | cmd
    · simp [run_application_command, hrtg, hreg]
    · rcases henv : env.cooledDownResult with e | cooled
      · simp [run_application_command, hrtg, hreg, henv]
      · rcases cooled <;> simp [run_application_command, hrtg, hreg, henv]

/-- Flag effects of one ready event: `discord_ready` and `ready_to_go` never
drop from true to false, and `ready_to_go = true` still implies
`discord_ready = true` afterwards. -/
theorem ready_flags (s : HandlerState) (dbOk initOk : Bool) (u : CurrentUser) :
    ((ready s dbOk initOk u).state.discord_ready = true ∨
      (ready s dbOk initOk u).state.discord_ready = s.discord_ready) ∧
    (s.discord_ready = true → (ready s dbOk initOk u).state.discord_ready = true) ∧
    (s.ready_to_go = true → (ready s dbOk initOk u).state.ready_to_go = true) ∧
    ((s.ready_to_go = true → s.discord_ready = true) →
      ((ready s dbOk initOk u).state.ready_to_go = true →
        (ready s dbOk initOk u).state.discord_ready = true)) := by
  obtain ⟨dr, rtg, user⟩ := s
  rcases dbOk <;> rcases dr <;> rcases rtg <;> rcases user with _ | u2 <;>
    simp [ready, discord_ready_up, appear_active]

/-- C1: while `READY_TO_GO` is false, `run_application_command` emits exactly
the not-ready response and stops — no registry lookup, no cooldown check, no
command execution, no cooldown recording, no state change, no panic. -/
theorem not_ready_short_circuits (s : HandlerState) (i : Interaction)
    (env : DispatchEnv) (h : s.ready_to_go = false) :
    (run_application_command s i env).trace = [Event.notReadyResponse] ∧
    (run_application_command s i env).state = s ∧
    (run_application_command s i env).panicked = false ∧
    Event.registryLookup i.name ∉ (run_application_command s i env).trace ∧
    (∀ uid nm, Event.cooldownCheck uid nm ∉ (run_application_command s i env).trace) ∧
    (∀ nm, Event.executeCommand nm ∉ (run_application_command s i env).trace) ∧
    (∀ uid nm, Event.recordUse uid nm ∉ (run_application_command s i env).trace) := by
  simp [run_application_command, h]

/-- Witness for C1: a concrete not-ready state, interaction and environment. -/
theorem not_ready_short_circuits_witness :
    (run_application_command initialState ⟨1, 2, "ban"⟩
      ⟨fun _ => some ⟨"ban"⟩, Except.ok true, Except.ok 0,
        Except.ok (), Except.ok ()⟩).trace = [Event.notReadyResponse] :=
  (not_ready_short_circuits initialState ⟨1, 2, "ban"⟩
      ⟨fun _ => some ⟨"ban"⟩, Except.ok true, Except.ok 0,
        Except.ok (), Except.ok ()⟩ rfl).1

/-- C7: while `READY_TO_GO` is true, an interaction whose command name has no
registered command yields exactly the lookup followed by the unknown-command
response — no cooldown check, no cooldown-store write, no execution, no state
change, no panic. -/
theorem unknown_command_short_circuits (s : HandlerState) (i : Interaction)
    (env : DispatchEnv) (hready : s.ready_to_go = true)
    (habsent : env.registry i.name = none) :
    (run_application_command s i env).trace
      = [Event.registryLookup i.name, Event.unknownCommandResponse] ∧
    (run_application_command s i env).state = s ∧
    (run_application_command s i env).panicked = false ∧
    (∀ uid nm, Event.cooldownCheck uid nm ∉ (run_application_command s i env).trace) ∧
    (∀ nm, Event.executeCommand nm ∉ (run_application_command s i env).trace) ∧
    (∀ uid nm, Event.recordUse uid nm ∉ (run_application_command s i env).trace) := by
  simp [run_application_command, hready, habsent]

/-- Witness for C7: command name "foo" is not registered. -/
theorem unknown_command_short_circuits_witness :
    (run_application_command ⟨true, true, some ⟨0⟩⟩ ⟨1, 2, "foo"⟩
      ⟨fun _ => none, Except.ok true, Except.ok 0,
        Except.ok (), Except.ok ()⟩).trace
      = [Event.registryLookup "foo", Event.unknownCommandResponse] :=
  (unknown_command_short_circuits ⟨true, true, some ⟨0⟩⟩ ⟨1, 2, "foo"⟩
      ⟨fun _ => none, Except.ok true, Except.ok 0,
        Except.ok (), Except.ok ()⟩ rfl rfl).1

/-- C3: if the cooldown check returns a store error, the dispatch panics on the
`unwrap` (aborting the current interaction with the error), sends no response to
the user, and neither command execution nor cooldown recording occurs; the
statics are unchanged. -/
theorem cooldown_store_error_aborts_dispatch (s : HandlerState)
    (i : Interaction) (env : DispatchEnv) (cmd : Command) (e : StoreError)
    (hready : s.ready_to_go = true)
    (hfound : env.registry i.name = some cmd)
    (herr : env.cooledDownResult = Except.error e) :
    (run_application_command s i env).panicked = true ∧
    (run_application_command s i env).state = s ∧
    (run_application_command s i env).trace
      = [Event.registryLookup i.name, Event.cooldownCheck i.userId cmd.name] ∧
    Event.notReadyResponse ∉ (run_application_command s i env).trace ∧
    Event.unknownCommandResponse ∉ (run_application_command s i env).trace ∧
    Event.notCooledDownResponse ∉ (run_application_command s i env).trace ∧
    (∀ nm, Event.executeCommand nm ∉ (run_application_command s i env).trace) ∧
    (∀ uid nm, Event.recordUse uid nm ∉ (run_application_command s i env).trace) := by
  simp [run_application_command, hready, hfound, herr]

/-- Witness for C3: concrete ready state, registered command, failing store. -/
theorem cooldown_store_error_aborts_dispatch_witness :
    (run_application_command ⟨true, true, some ⟨0⟩⟩ ⟨1, 2, "ban"⟩
      ⟨fun _ => some ⟨"ban"⟩, Except.error ⟨"db down"⟩, Except.ok 0,
        Except.ok (), Except.ok ()⟩).panicked = true :=
  (cooldown_store_error_aborts_dispatch ⟨true, true, some ⟨0⟩⟩ ⟨1, 2, "ban"⟩
      ⟨fun _ => some ⟨"ban"⟩, Except.error ⟨"db down"⟩, Except.ok 0,
        Except.ok (), Except.ok ()⟩ ⟨"ban"⟩ ⟨"db down"⟩ rfl rfl rfl).1

/-- C4 counterexample: at a concrete dispatch whose execution succeeds and
whose `use_last` recording fails, the trace of `handle_command_execution` is
exactly execute, success log, record attempt — it contains no error-log event
of any kind, refuting that a failure of the recording is logged: the
`let _ = use_last(..)` at handler.rs:250 discards the failure silently. -/
theorem record_failure_not_logged :
    handle_command_execution ⟨"ban"⟩ ⟨1, 2, "ban"⟩ (Except.ok ())
        (Except.error ⟨"db down"⟩)
      = [Event.executeCommand "ban", Event.logSuccess 1 "ban",
         Event.recordUse 2 "ban"] ∧
    Event.errorLog "db down" ∉
      handle_command_execution ⟨"ban"⟩ ⟨1, 2, "ban"⟩ (Except.ok ())
        (Except.error ⟨"db down"⟩) ∧
    Event.logError 1 "ban" ∉
      handle_command_execution ⟨"ban"⟩ ⟨1, 2, "ban"⟩ (Except.ok ())
        (Except.error ⟨"db down"⟩) := by
  decide

/-- C4 amended: every dispatch that reaches command execution records the use
via `use_last` afterwards, in the success and in the failure case alike; a
failure of that recording is silently swallowed — discarded without logging —
and the trace (including the already-logged execution outcome) is entirely
independent of the result of that recording, never containing an error-log
event for it. -/
theorem use_recorded_regardless_of_outcome (s : HandlerState) (i : Interaction)
    (env : DispatchEnv) (cmd : Command)
    (hready : s.ready_to_go = true)
    (hfound : env.registry i.name = some cmd)
    (hcool : env.cooledDownResult = Except.ok true) :
    (run_application_command s i env).trace
      = [Event.registryLookup i.name, Event.cooldownCheck i.userId cmd.name] ++
        handle_command_execution cmd i env.execResult env.useLastResult ∧
    Event.recordUse i.userId cmd.name ∈ (run_application_command s i env).trace ∧
    (∀ r : Except StoreError Unit,
      handle_command_execution cmd i env.execResult r
        = handle_command_execution cmd i env.execResult env.useLastResult) ∧
    (∀ u : Unit, env.execResult = Except.ok u →
      handle_command_execution cmd i env.execResult env.useLastResult
        = [Event.executeCommand cmd.name, Event.logSuccess i.id cmd.name,
           Event.recordUse i.userId cmd.name]) ∧
    (∀ msg : String, env.execResult = Except.error msg →
      handle_command_execution cmd i env.execResult env.useLastResult
        = [Event.executeCommand cmd.name, Event.logError i.id cmd.name,
           Event.recordUse i.userId cmd.name]) ∧
    (∀ (r : Except StoreError Unit) (msg : String),
      Event.errorLog msg ∉ handle_command_execution cmd i env.execResult r) := by
  refine ⟨by simp [run_application_command, hready, hfound, hcool],
    ?_, ?_, ?_, ?_, ?_⟩
  · rcases env.execResult with u | msg <;>
      rcases henv : env.useLastResult with r | r <;>
      simp [run_application_command, handle_command_execution,
        hready, hfound, hcool, henv]
  · intro r
    rcases env.execResult with u | msg <;> rcases r with r | r <;>
      rcases henv : env.useLastResult with r2 | r2 <;>
      simp [handle_command_execution, henv]
  · intro u hu
    rcases henv : env.useLastResult with r | r <;>
      simp [handle_command_execution, hu, henv]
  · intro msg hmsg
    rcases henv : env.useLastResult with r | r <;>
      simp [handle_command_execution, hmsg, henv]
  · intro r msg
    rcases env.execResult with u | m <;> rcases r with r | r <;>
      simp [handle_command_execution]

/-- Witness for C4: a dispatch whose execution fails and whose cooldown
recording also fails; the use is still recorded after the logged failure. -/
theorem use_recorded_regardless_of_outcome_witness :
    Event.recordUse 2 "ban" ∈
      (run_application_command ⟨true, true, some ⟨0⟩⟩ ⟨1, 2, "ban"⟩
        ⟨fun _ => some ⟨"ban"⟩, Except.ok true, Except.ok 0,
          Except.error "boom", Except.error ⟨"db down"⟩⟩).trace :=
  (use_recorded_regardless_of_outcome ⟨true, true, some ⟨0⟩⟩ ⟨1, 2, "ban"⟩
      ⟨fun _ => some ⟨"ban"⟩, Except.ok true, Except.ok 0,
        Except.error "boom", Except.error ⟨"db down"⟩⟩ ⟨"ban"⟩
      rfl rfl rfl).2.1

/-- C2: in every reachable state of the statics, `READY_TO_GO = true` implies
`DISCORD_READY = true`, and every handler entry point is monotone on both
flags — no step ever resets either flag from true to false. -/
theorem readiness_latch_invariant :
    (∀ s, Reachable s → s.ready_to_go = true → s.discord_ready = true) ∧
    (∀ s t, Step s t →
      (s.discord_ready = true → t.discord_ready = true) ∧
      (s.ready_to_go = true → t.ready_to_go = true)) := by
  constructor
  · intro s hs
    induction hs with
    | init => intro h; simp [initialState] at h
    | step hr hst ih =>
      cases hst with
      | readyEvent dbOk initOk u => exact (ready_flags _ dbOk initOk u).2.2.2 ih
      | appCommand i env =>
        rw [dispatch_preserves_state]
        exact ih
      | otherInteraction => exact ih
  · intro s t hst
    cases hst with
    | readyEvent dbOk initOk u =>
      exact ⟨(ready_flags _ dbOk initOk u).2.1, (ready_flags _ dbOk initOk u).2.2.1⟩
    | appCommand i env =>
      rw [dispatch_preserves_state]
      exact ⟨fun h => h, fun h => h⟩
    | otherInteraction => exact ⟨fun h => h, fun h => h⟩

/-- Witness for C2: the state right after one successful ready event is
reachable, has `READY_TO_GO = true`, and the invariant yields
`DISCORD_READY = true` there; a dispatch step preserves `READY_TO_GO`. -/
theorem readiness_latch_invariant_witness :
    (ready initialState true true ⟨0⟩).state.discord_ready = true ∧
    (run_application_command (ready initialState true true ⟨0⟩).state ⟨1, 2, "ban"⟩
      ⟨fun _ => none, Except.ok true, Except.ok 0, Except.ok (),
        Except.ok ()⟩).state.ready_to_go = true :=
  ⟨readiness_latch_invariant.1 (ready initialState true true ⟨0⟩).state
      (Reachable.step Reachable.init (Step.readyEvent initialState true true ⟨0⟩))
      (by decide),
   (readiness_latch_invariant.2 (ready initialState true true ⟨0⟩).state
      (run_application_command (ready initialState true true ⟨0⟩).state ⟨1, 2, "ban"⟩
        ⟨fun _ => none, Except.ok true, Except.ok 0, Except.ok (), Except.ok ()⟩).state
      (Step.appCommand (ready initialState true true ⟨0⟩).state ⟨1, 2, "ban"⟩
        ⟨fun _ => none, Except.ok true, Except.ok 0, Except.ok (), Except.ok ()⟩)).2
      (by decide)⟩

/-- C5: after its sleep, the watchdog body reads only `DISCORD_READY` — its
behaviour is a function of that flag alone; when the flag is still false it
logs an error and exits with status 1 (non-zero, hence distinguished from a
normal exit), and when the flag is true it does nothing and never exits. -/
theorem timeout_checker_checks_only_discord_ready (s : HandlerState) :
    (s.discord_ready = false →
      timeout_check s = [Event.errorLog "Services not ready", Event.exitProcess 1] ∧
      (1 : Nat) ≠ 0) ∧
    (s.discord_ready = true →
      timeout_check s = [] ∧ ∀ c, Event.exitProcess c ∉ timeout_check s) ∧
    (∀ t : HandlerState, s.discord_ready = t.discord_ready →
      timeout_check s = timeout_check t) := by
  refine ⟨?_, ?_, ?_⟩
  · intro h
    simp [timeout_check, h]
  · intro h
    simp [timeout_check, h]
  · intro t ht
    simp [timeout_check, ht]

/-- Witness for C5: a never-readied state exits with 1; a readied state whose
`READY_TO_GO` is still false does nothing. -/
theorem timeout_checker_checks_only_discord_ready_witness :
    (timeout_check initialState
        = [Event.errorLog "Services not ready", Event.exitProcess 1] ∧
      (1 : Nat) ≠ 0) ∧
    timeout_check ⟨true, false, some ⟨0⟩⟩ = [] :=
  ⟨(timeout_checker_checks_only_discord_ready initialState).1 rfl,
   ((timeout_checker_checks_only_discord_ready ⟨true, false, some ⟨0⟩⟩).2.1 rfl).1⟩

/-- C6: the ready startup sequence is idempotent — once the first ready event
leaves `DISCORD_READY = true`, a second ready event re-runs neither
`discord_ready_up` nor `initialize_systems`, and the readiness flags after two
ready events equal the flags after one. -/
theorem ready_event_idempotent (s : HandlerState) (i1 i2 : Bool)
    (u1 u2 : CurrentUser) :
    ((ready s true i1 u1).state.discord_ready = true →
      Event.discordReadyUpRun ∉ (ready (ready s true i1 u1).state true i2 u2).trace ∧
      Event.initSystemsRun ∉ (ready (ready s true i1 u1).state true i2 u2).trace) ∧
    (ready (ready s true i1 u1).state true i2 u2).state.discord_ready
      = (ready s true i1 u1).state.discord_ready ∧
    (ready (ready s true i1 u1).state true i2 u2).state.ready_to_go
      = (ready s true i1 u1).state.ready_to_go := by
  obtain ⟨dr, rtg, user⟩ := s
  rcases dr <;> rcases rtg <;> rcases user with _ | u0 <;>
    simp [ready, discord_ready_up, appear_active, initialize_systems_step]

/-- Witness for C6: from the initial state, the second ready event re-runs no
initialization and the flags are unchanged. -/
theorem ready_event_idempotent_witness :
    (Event.discordReadyUpRun ∉
        (ready (ready initialState true true ⟨0⟩).state true true ⟨1⟩).trace ∧
      Event.initSystemsRun ∉
        (ready (ready initialState true true ⟨0⟩).state true true ⟨1⟩).trace) ∧
    (ready (ready initialState true true ⟨0⟩).state true true ⟨1⟩).state.discord_ready
      = (ready initialState true true ⟨0⟩).state.discord_ready ∧
    (ready (ready initialState true true ⟨0⟩).state true true ⟨1⟩).state.ready_to_go
      = (ready initialState true true ⟨0⟩).state.ready_to_go :=
  ⟨(ready_event_idempotent initialState true true ⟨0⟩ ⟨1⟩).1 (by decide),
   (ready_event_idempotent initialState true true ⟨0⟩ ⟨1⟩).2.1,
   (ready_event_idempotent initialState true true ⟨0⟩ ⟨1⟩).2.2⟩

/-- C9 counterexample: after `discord_ready_up` has completed once from the
initial state, calling it again directly fails — it panics on the
`AEGISTRATE_USER.set(..).unwrap()` — refuting that a subsequent call "does not
fail". -/
theorem discord_ready_up_second_call_panics :
    (discord_ready_up (discord_ready_up initialState ⟨0⟩).state ⟨0⟩).panicked
      = true := by
  decide

/-- C9 amended: once `discord_ready_up` has completed (the `AEGISTRATE_USER`
cell is filled), a direct second call panics before modifying any of the
statics, leaving the readiness state unchanged; the once-only logical calling
discipline is enforced by the `ready` handler's `DISCORD_READY` guard, which no
longer invokes `discord_ready_up` at all. -/
theorem discord_ready_up_after_completion_panics_unchanged (s : HandlerState)
    (u : CurrentUser) (initOk : Bool) (h : s.aegistrate_user.isSome = true) :
    (discord_ready_up s u).panicked = true ∧
    (discord_ready_up s u).state = s ∧
    (s.discord_ready = true →
      Event.discordReadyUpRun ∉ (ready s true initOk u).trace) := by
  rcases hu : s.aegistrate_user with _ | u0
  · simp [hu] at h
  · refine ⟨by simp [discord_ready_up, hu], by simp [discord_ready_up, hu], ?_⟩
    intro hdr
    simp [ready, appear_active, hdr, hu]

/-- Witness for C9's amended theorem: the state after the first completed call. -/
theorem discord_ready_up_after_completion_panics_unchanged_witness :
    (discord_ready_up (discord_ready_up initialState ⟨0⟩).state ⟨1⟩).panicked = true ∧
    (discord_ready_up (discord_ready_up initialState ⟨0⟩).state ⟨1⟩).state
      = (discord_ready_up initialState ⟨0⟩).state ∧
    ((discord_ready_up initialState ⟨0⟩).state.discord_ready = true →
      Event.discordReadyUpRun ∉
        (ready (discord_ready_up initialState ⟨0⟩).state true true ⟨1⟩).trace) :=
  discord_ready_up_after_completion_panics_unchanged
    (discord_ready_up initialState ⟨0⟩).state ⟨1⟩ true (by decide)

/-- C8 counterexample: the dispatcher's `READY_TO_GO.load` at handler.rs:259
uses `Ordering::Relaxed`, which is not acquire/release or stronger — refuting
that all readiness-flag accesses use acquire/release (or stronger) ordering. -/
theorem flag_ordering_not_acquire_release :
    MemOrd.isAcquireReleaseOrStronger
      (siteOrdering FlagAccessSite.dispatcherReadyToGoLoad) = false := by
  decide

/-- C8 amended: every access to the two readiness flags in handler.rs uses
`Ordering::Relaxed`; the accesses are atomic, but none of them carries the
acquire/release annotation the claimed happens-before edge would require. -/
theorem all_flag_accesses_relaxed :
    ∀ site : FlagAccessSite, siteOrdering site = MemOrd.relaxed := by
  intro site
  cases site <;> rfl

/-- C10: invoked without a guild id (from a DM), `ban` panics on the
`guild_id.unwrap()` before performing any external ban call; its error outcome
can only arise when a guild id is present. -/
theorem ban_requires_guild (params : ModerationParameters)
    (banResult : Except String Unit) :
    ban params none banResult = (BanOutcome.panicked, []) ∧
    (∀ (gid : Option Nat) (e : String),
      (ban params gid banResult).1 = BanOutcome.err e → gid.isSome = true) := by
  constructor
  · rfl
  · intro gid e h
    rcases gid with _ | g
    · simp [ban] at h
    · rfl

/-- Witness for C10: a DM invocation panics with no ban call; a failing guild
invocation shows the error branch needs a present guild id. -/
theorem ban_requires_guild_witness :
    ban ⟨5, "spam"⟩ none (Except.ok ()) = (BanOutcome.panicked, []) ∧
    (some 9).isSome = true :=
  ⟨(ban_requires_guild ⟨5, "spam"⟩ (Except.ok ())).1,
   (ban_requires_guild ⟨5, "spam"⟩ (Except.error "boom")).2 (some 9) "boom" rfl⟩

end Aegistrate
